import Mathlib

/-!
Verification development for the AuraOS bridge AI subsystem.

Shallow embedding of:
* `packages/core/bridge/ai/ai_command_sender.py` (provider gateway, retry
  logic, response cache, orchestration of `send_command`),
* `packages/core/bridge/translators/ai_command_translator.py` (the three
  translation strategies, the engine `translate_command`, and the
  statement validator), and
* `packages/core/bridge/ai/ai_layer_integration.py` (the interaction
  record and `execute_interaction`).

Conventions: Python floats are modelled as exact rationals (`ℚ`); Python
strings as `String` / `List Char`; Python dict-shaped JSON payloads as
structures with `Option` fields for optional keys; exceptions as `Except`.
Wall-clock instants are passed explicitly.  Logging and the statistics
counters are omitted (no modelled behaviour reads them).
-/

namespace AuraOS

/-! ### Python string primitives -/

/-- The characters Python's default `str.strip()` / `str.split()` treat as
whitespace. -/
def pyIsSpace (c : Char) : Bool :=
  c = ' ' || c = '\t' || c = '\n' || c = '\r' || c = Char.ofNat 11 || c = Char.ofNat 12

/-- `str.lower()` on a character list (ASCII-adequate for this code base). -/
def lowerL (l : List Char) : List Char := l.map Char.toLower

/-- `str.upper()` on a character list. -/
def upperL (l : List Char) : List Char := l.map Char.toUpper

/-- Remove trailing whitespace (`str.rstrip()`). -/
def rstripL (l : List Char) : List Char :=
  ((l.reverse.dropWhile pyIsSpace)).reverse

/-- `str.strip()`: drop leading and trailing whitespace. -/
def stripL (l : List Char) : List Char :=
  rstripL (l.dropWhile pyIsSpace)

/-- Python's `sub in s` substring test. -/
def containsSub (pat l : List Char) : Bool :=
  l.tails.any fun t => pat.isPrefixOf t

/-- Scanner for Python's `s.count(sub)`: when `skip = 0`, test for a
match at the current position (scoring 1 and then skipping the rest of
the matched text, i.e. `pat.length - 1` further characters, so
occurrences do not overlap); while `skip > 0`, just consume characters.
Structural recursion on the string keeps the definition
kernel-reducible. -/
def countOccAux (pat : List Char) : List Char → Nat → Nat
  | [], _ => 0
  | c :: rest, 0 =>
    if pat.isPrefixOf (c :: rest) then
      1 + countOccAux pat rest (pat.length - 1)
    else
      countOccAux pat rest 0
  | _ :: rest, k + 1 => countOccAux pat rest k

/-- Python's `s.count(sub)` for a non-empty `sub`: non-overlapping
occurrences, scanning left to right and skipping past each match. -/
def countOcc (pat l : List Char) : Nat := countOccAux pat l 0

/-- `str.split()` with no separator: split on whitespace runs, dropping
empty fields. -/
def pySplitGo : List Char → List Char → List (List Char)
  | [], cur => if cur.isEmpty then [] else [cur.reverse]
  | c :: rest, cur =>
    if pyIsSpace c then
      if cur.isEmpty then pySplitGo rest [] else cur.reverse :: pySplitGo rest []
    else
      pySplitGo rest (c :: cur)

def pySplitL (l : List Char) : List (List Char) := pySplitGo l []

/- String-level wrappers. -/
def pyLower (s : String) : String := ⟨lowerL s.toList⟩
def pyUpper (s : String) : String := ⟨upperL s.toList⟩
def pyStrip (s : String) : String := ⟨stripL s.toList⟩
def containsS (hay needle : String) : Bool := containsSub needle.toList hay.toList
def countOccS (needle hay : String) : Nat := countOcc needle.toList hay.toList
def pySplit (s : String) : List String := (pySplitL s.toList).map fun l => ⟨l⟩

/-- `" ".join(parts)`. -/
def joinSpace (parts : List String) : String := String.intercalate " " parts

/-! ### Error model (`bridge/core/error_handler.py`) -/

inductive ErrorCategory | system | communication | translation | execution
deriving DecidableEq, Repr

inductive ErrorSeverity | low | medium | high | critical
deriving DecidableEq, Repr

/-- `BridgeError`: the repository's exception type.  `str(e)` is the
`message` field. -/
structure BridgeError where
  message : String
  category : ErrorCategory
  severity : ErrorSeverity
deriving DecidableEq, Repr

/-! ### `AICommandSender._send_with_retries` (`ai_command_sender.py:570`)

The provider's `send_request` is modelled as a function from the attempt
index to an outcome.  The trace records the number of `send_request`
invocations and the list of back-off sleeps performed, in order.  The
overall outcome is `.error none` for the dead branch
`raise last_exception or Exception("All retry attempts failed")` with no
recorded exception, else `.error (some e)` with the last exception. -/

/-- The retry loop, with `remaining = retryAttempts - attempt` as the
structural recursion argument.  The back-off sleep happens only when the
failed attempt is not the last one (`attempt < retry_attempts - 1`,
i.e. `remaining > 1`). -/
def send_with_retries_go {ε ρ : Type} (send : Nat → Except ε ρ) :
    Nat → Nat → Option ε → Except (Option ε) ρ × Nat × List Nat
  | 0, _, lastExc => (.error lastExc, 0, [])
  | remaining + 1, attempt, _ =>
    match send attempt with
    | .ok r => (.ok r, 1, [])
    | .error e =>
      let rest := send_with_retries_go send remaining (attempt + 1) (some e)
      if remaining > 0 then
        (rest.1, rest.2.1 + 1, 2 ^ attempt :: rest.2.2)
      else
        (rest.1, rest.2.1 + 1, rest.2.2)

/-- `_send_with_retries`: returns (outcome, number of `send_request`
calls, back-off sleeps in time units). -/
def send_with_retries {ε ρ : Type} (retryAttempts : Nat)
    (send : Nat → Except ε ρ) : Except (Option ε) ρ × Nat × List Nat :=
  send_with_retries_go send retryAttempts 0 none

/-! ### Provider response parsing (`ai_command_sender.py:190` and `:323`) -/

structure Usage where
  prompt_tokens : Nat
  completion_tokens : Nat
  total_tokens : Nat
deriving DecidableEq, Repr

/-- Parsed provider response (the dict returned by `_parse_response`). -/
structure ParsedResponse where
  success : Bool
  content : String
  model : String
  usage : Usage
  finish_reason : String
  provider : String
deriving DecidableEq, Repr

/-- `message` object inside an OpenAI choice; `content` key optional. -/
structure OpenAIMessage where
  content : Option String
deriving DecidableEq, Repr

structure OpenAIChoice where
  message : Option OpenAIMessage
  finish_reason : Option String
deriving DecidableEq, Repr

/-- The JSON body of a 200 OpenAI response, restricted to the keys
`_parse_response` reads. -/
structure OpenAIResponseData where
  choices : List OpenAIChoice
  model : Option String
  usage : Usage
deriving DecidableEq, Repr

/-- `choices[0].get("message", {}).get("content", "")`. -/
def openAIRawContent (c : OpenAIChoice) : String :=
  ((c.message.getD ⟨none⟩).content).getD ""

/-- `OpenAIProvider._parse_response`.  A `raise` inside the `try` block is
re-caught by the function's own `except Exception` handler, which wraps
the message. -/
def openai_parse_response (selfModel : String) (r : OpenAIResponseData) :
    Except BridgeError ParsedResponse :=
  match r.choices with
  | [] =>
    .error ⟨"Failed to parse OpenAI response: No choices in OpenAI response",
            .communication, .medium⟩
  | c :: _ =>
    .ok { success := true
          content := pyStrip (openAIRawContent c)
          model := r.model.getD selfModel
          usage := r.usage
          finish_reason := c.finish_reason.getD "unknown"
          provider := "openai" }

structure GooglePart where
  text : Option String
deriving DecidableEq, Repr

structure GoogleContent where
  parts : List GooglePart
deriving DecidableEq, Repr

structure GoogleCandidate where
  content : Option GoogleContent
  finishReason : Option String
deriving DecidableEq, Repr

structure GoogleResponseData where
  candidates : List GoogleCandidate
  usageMetadata : Usage
deriving DecidableEq, Repr

/-- `candidate.get("content", {}).get("parts", [])`. -/
def googleParts (c : GoogleCandidate) : List GooglePart :=
  (c.content.getD ⟨[]⟩).parts

/-- `GoogleProvider._parse_response`. -/
def google_parse_response (selfModel : String) (r : GoogleResponseData) :
    Except BridgeError ParsedResponse :=
  match r.candidates with
  | [] =>
    .error ⟨"Failed to parse Google Gemini response: No candidates in Google Gemini response",
            .communication, .medium⟩
  | c :: _ =>
    match googleParts c with
    | [] =>
      .error ⟨"Failed to parse Google Gemini response: No content parts in Google Gemini response",
              .communication, .medium⟩
    | p :: _ =>
      .ok { success := true
            content := pyStrip (p.text.getD "")
            model := selfModel
            usage := r.usageMetadata
            finish_reason := c.finishReason.getD "unknown"
            provider := "google" }

/-! ### Interaction lifecycle (`ai_layer_integration.py`) -/

inductive AIInteractionStatus
  | pending | in_progress | completed | failed | cancelled
deriving DecidableEq, Repr

/-- Result dict produced by `AICommandExecutor.execute_command`, restricted
to the keys read downstream. -/
structure ExecutionOutcome where
  success : Bool
  output : String
  execution_time : ℚ
deriving DecidableEq, Repr

/-- The `AIInteraction` dataclass. -/
structure AIInteraction where
  interaction_id : String
  status : AIInteractionStatus
  created_at : ℚ
  updated_at : ℚ
  prompt : String
  ai_response : Option String
  translated_commands : Option (List String)
  execution_results : Option (List ExecutionOutcome)
  feedback : Option String
  confidence_score : Option ℚ
  error_message : Option String
  ai_processing_time : Option ℚ
  translation_time : Option ℚ
  execution_time : Option ℚ
  total_time : Option ℚ
deriving DecidableEq, Repr

/-- Dict returned by `_send_to_ai_provider` (keys read by
`execute_interaction`; `confidence` is read with default `0.5`). -/
structure AiPhaseResult where
  success : Bool
  response : String
  confidence : Option ℚ
  error : Option String
deriving DecidableEq, Repr

/-- Dict returned by `_translate_commands`.  It carries the translation
engine's own `confidence` field, which `execute_interaction` never reads. -/
structure TransPhaseResult where
  success : Bool
  commands : List String
  confidence : Option ℚ
  error : Option String
deriving DecidableEq, Repr

/-- `AILayerIntegration.execute_interaction` (`ai_layer_integration.py:667`),
with the three phase outcomes and the measured phase durations supplied as
arguments (the phases themselves are network calls).  Each
`update_status` call sets `status`, refreshes `updated_at`, and assigns
exactly the keyword arguments present at that call site. -/
def execute_interaction (now : ℚ) (i : AIInteraction)
    (aiResult : AiPhaseResult) (aiTime : ℚ)
    (translationResult : TransPhaseResult) (translationTime : ℚ)
    (executionResults : List ExecutionOutcome) (executionTime totalTime : ℚ) :
    AIInteraction :=
  let i1 : AIInteraction := { i with status := .in_progress, updated_at := now }
  if aiResult.success = false then
    { i1 with status := .failed, updated_at := now
              error_message := some (aiResult.error.getD "AI provider failed")
              ai_processing_time := some aiTime }
  else if translationResult.success = false then
    { i1 with status := .failed, updated_at := now
              error_message := some (translationResult.error.getD "Translation failed")
              ai_processing_time := some aiTime
              translation_time := some translationTime }
  else
    { i1 with status := .completed, updated_at := now
              ai_response := some aiResult.response
              translated_commands := some translationResult.commands
              execution_results := some executionResults
              ai_processing_time := some aiTime
              translation_time := some translationTime
              execution_time := some executionTime
              total_time := some totalTime
              confidence_score := some (aiResult.confidence.getD (1/2)) }

/-! ### Statement validator
(`AICommandTranslator._validate_translation`, `ai_command_translator.py:620`) -/

structure Validation where
  is_valid : Bool
  issues : List String
  suggestions : List String
  syntax_score : ℚ
deriving DecidableEq, Repr

def validKeywords : List String :=
  ["PRINT", "LET", "FOR", "NEXT", "IF", "THEN", "ELSE", "GOTO", "GOSUB",
   "RETURN", "END", "REM", "DATA", "READ", "RESTORE", "DIM", "INPUT", "CLS",
   "LIST", "RUN", "STOP", "CONT", "SAVE", "LOAD"]

/-- The apostrophe character, `'`. -/
def quoteChar2 : Char := Char.ofNat 39

def validate_translation (translation : String) : Validation :=
  if pyStrip translation = "" then
    { is_valid := false, issues := ["Empty translation"], suggestions := []
      syntax_score := 0 }
  else
    let tu := pyStrip (pyUpper translation)
    let hasValidKeyword := validKeywords.any fun k => containsS tu k
    let printIssue := containsS tu "PRINT"
      && !containsS translation "\"" && !containsS translation (String.mk [quoteChar2])
      && !containsS translation ";"
    let letIssue := containsS tu "LET" && !containsS translation "="
    let forCount := countOccS "FOR" tu
    let nextCount := countOccS "NEXT" tu
    let ifCount := countOccS "IF" tu
    let thenCount := countOccS "THEN" tu
    let issues :=
      (if hasValidKeyword then [] else ["No valid BASIC keywords found"]) ++
      (if printIssue then ["PRINT statement may be missing quotes or semicolons"] else []) ++
      (if letIssue then ["LET statement missing assignment operator"] else []) ++
      (if forCount ≠ nextCount then
        ["Unbalanced FOR/NEXT loops (" ++ toString forCount ++ " FOR, " ++
         toString nextCount ++ " NEXT)"] else []) ++
      (if ifCount ≠ thenCount then
        ["Unbalanced IF/THEN statements (" ++ toString ifCount ++ " IF, " ++
         toString thenCount ++ " THEN)"] else [])
    let suggestions :=
      (if hasValidKeyword then [] else
        ["Consider using PRINT, LET, FOR, IF, or other BASIC commands"]) ++
      (if printIssue then
        ["PRINT statements should include quotes around text or semicolons for variables"]
       else []) ++
      (if letIssue then ["LET statements should use = for assignment"] else []) ++
      (if forCount ≠ nextCount then
        ["Ensure each FOR statement has a corresponding NEXT statement"] else []) ++
      (if ifCount ≠ thenCount then
        ["Ensure each IF statement has a corresponding THEN clause"] else [])
    let syntaxScore := max (1 - (issues.length : ℚ) * (1/5)) 0
    { is_valid := issues.isEmpty, issues := issues, suggestions := suggestions
      syntax_score := syntaxScore }

/-! ### Rule-based confidence
(`RuleBasedTranslator._calculate_rule_confidence`, `ai_command_translator.py:341`) -/

def ruleBasicKeywords : List (String × String) :=
  [("print", "PRINT"), ("let", "LET"), ("for", "FOR"), ("next", "NEXT"),
   ("if", "IF"), ("then", "THEN"), ("else", "ELSE"), ("goto", "GOTO"),
   ("end", "END"), ("rem", "REM")]

def ruleOperators : List (String × String) :=
  [("equals", "="), ("plus", "+"), ("minus", "-"), ("times", "*"),
   ("divided by", "/"), ("greater than", ">"), ("less than", "<"),
   ("not equal", "<>")]

def basicSyntaxList : List String := ["PRINT", "LET", "FOR", "NEXT", "IF", "THEN"]

/-- `sum(1 for keyword in basic_keywords if keyword in command)`. -/
def ruleKeywordCount (command : String) : Nat :=
  (ruleBasicKeywords.filter fun kv => containsS command kv.1).length

/-- `sum(1 for syntax in basic_syntax if syntax in translation)`. -/
def ruleSyntaxCount (translation : String) : Nat :=
  (basicSyntaxList.filter fun k => containsS translation k).length

def calculate_rule_confidence (command translation : String) : ℚ :=
  let confidence : ℚ := 1/2
  let confidence := confidence + min ((ruleKeywordCount command : ℚ) * (1/10)) (3/10)
  let confidence := confidence + min ((ruleSyntaxCount translation : ℚ) * (1/10)) (1/5)
  min confidence 1

/-! ### A small regex engine

`PatternBasedTranslator` matches Python `re` patterns against the
lower-cased, stripped command.  The eight patterns use only: literal
words, alternation `|`, optional `(?:..)?`, character classes, `+`/`*`
over a character class, and capturing groups over such pieces.  The
matcher below implements standard backtracking semantics: alternatives
in written order, greedy `+`/`*`, leftmost match first — which is what
Python's `re.search` produces for these patterns. -/

inductive RE where
  | lit : List Char → RE
  | cls : (Char → Bool) → RE
  | cat : RE → RE → RE
  | alt : RE → RE → RE
  | opt : RE → RE
  | star : (Char → Bool) → RE
  | plus : (Char → Bool) → RE
  | grp : RE → RE

/-- All ways `p*` can match a prefix of `s`, greedy (longest) first; each
element is the remaining suffix. -/
def starMat (p : Char → Bool) : List Char → List (List Char)
  | [] => [[]]
  | c :: rest => (if p c then starMat p rest else []) ++ [c :: rest]

/-- All matches of `r` against a prefix of `s`, in backtracking priority
order.  Each element is (remaining suffix, captured groups in order). -/
def reMatch : RE → List Char → List (List Char × List (List Char))
  | .lit l, s => if l.isPrefixOf s then [(s.drop l.length, [])] else []
  | .cls p, s =>
    match s with
    | [] => []
    | c :: rest => if p c then [(rest, [])] else []
  | .cat a b, s =>
    (reMatch a s).flatMap fun rc =>
      (reMatch b rc.1).map fun rc2 => (rc2.1, rc.2 ++ rc2.2)
  | .alt a b, s => reMatch a s ++ reMatch b s
  | .opt a, s => reMatch a s ++ [(s, [])]
  | .star p, s => (starMat p s).map fun r => (r, [])
  | .plus p, s =>
    match s with
    | [] => []
    | c :: rest => if p c then (starMat p rest).map (fun r => (r, [])) else []
  | .grp a, s =>
    (reMatch a s).map fun rc => (rc.1, rc.2 ++ [s.take (s.length - rc.1.length)])

/-- Captured groups of the leftmost match of `r` in `s` (`re.search`),
or `none` when there is no match anywhere. -/
def reSearchGroups (r : RE) : List Char → Option (List (List Char))
  | [] =>
    match reMatch r [] with
    | rc :: _ => some rc.2
    | [] => none
  | c :: rest =>
    match reMatch r (c :: rest) with
    | rc :: _ => some rc.2
    | [] => reSearchGroups r rest

/-- `re.search(r, s) is not None`. -/
def reSearch (r : RE) (s : List Char) : Bool := (reSearchGroups r s).isSome

/- Character classes used by the patterns. -/
def wordCls (c : Char) : Bool := c.isAlphanum || c = '_'
def digitCls (c : Char) : Bool := c.isDigit
def quoteCls (c : Char) : Bool := c = quoteChar2 || c = '"'
def notQuoteCls (c : Char) : Bool := !quoteCls c
def notWsCls (c : Char) : Bool := !pyIsSpace c
def dotCls (c : Char) : Bool := c ≠ '\n'

def reStr (s : String) : RE := .lit s.toList

/-- Left-to-right alternation of a non-empty list of alternatives. -/
def reAlts (r : RE) (rs : List RE) : RE := rs.foldl .alt r

/-- Sequential composition; `[]` is the empty (epsilon) pattern. -/
def reSeq (rs : List RE) : RE := rs.foldr .cat (.lit [])

/-! ### PatternBasedTranslator (`ai_command_translator.py:46`) -/

/-- `(?:print|display|show|output|echo)\s+(?:['\"]?)([^'\"]+)(?:['\"]?)` -/
def rePrintStatement : RE :=
  reSeq [reAlts (reStr "print") [reStr "display", reStr "show", reStr "output", reStr "echo"],
         .plus pyIsSpace, .opt (.cls quoteCls), .grp (.plus notQuoteCls),
         .opt (.cls quoteCls)]

/-- `(?:set|let|assign)\s+(\w+)\s+(?:to|equals?|=)\s+([^\s]+)` -/
def reVariableAssignment : RE :=
  reSeq [reAlts (reStr "set") [reStr "let", reStr "assign"],
         .plus pyIsSpace, .grp (.plus wordCls), .plus pyIsSpace,
         reAlts (reStr "to") [.cat (reStr "equal") (.opt (reStr "s")), reStr "="],
         .plus pyIsSpace, .grp (.plus notWsCls)]

/-- `(\w+)\s*=\s*([^\s]+)` -/
def reSimpleAssignment : RE :=
  reSeq [.grp (.plus wordCls), .star pyIsSpace, reStr "=", .star pyIsSpace,
         .grp (.plus notWsCls)]

/-- `(?:loop|for)\s+(?:from\s+)?(\d+)\s+(?:to|until)\s+(\d+)` -/
def reForLoop : RE :=
  reSeq [reAlts (reStr "loop") [reStr "for"], .plus pyIsSpace,
         .opt (.cat (reStr "from") (.plus pyIsSpace)), .grp (.plus digitCls),
         .plus pyIsSpace, reAlts (reStr "to") [reStr "until"], .plus pyIsSpace,
         .grp (.plus digitCls)]

/-- `if\s+(\w+)\s+(equals?|==|=)\s+(\w+)\s+(?:then\s+)?(?:print|show)\s+(?:['\"]?)([^'\"]+)(?:['\"]?)` -/
def reConditionalIf : RE :=
  reSeq [reStr "if", .plus pyIsSpace, .grp (.plus wordCls), .plus pyIsSpace,
         .grp (reAlts (.cat (reStr "equal") (.opt (reStr "s"))) [reStr "==", reStr "="]),
         .plus pyIsSpace, .grp (.plus wordCls), .plus pyIsSpace,
         .opt (.cat (reStr "then") (.plus pyIsSpace)),
         reAlts (reStr "print") [reStr "show"], .plus pyIsSpace,
         .opt (.cls quoteCls), .grp (.plus notQuoteCls), .opt (.cls quoteCls)]

/-- `(?:end|stop|terminate|exit)\s+(?:program)?` -/
def reEndProgram : RE :=
  reSeq [reAlts (reStr "end") [reStr "stop", reStr "terminate", reStr "exit"],
         .plus pyIsSpace, .opt (reStr "program")]

/-- `(?:comment|note|rem)\s+(.+)` -/
def reComment : RE :=
  reSeq [reAlts (reStr "comment") [reStr "note", reStr "rem"],
         .plus pyIsSpace, .grp (.plus dotCls)]

/-- `(?:calculate|compute|add|subtract|multiply|divide)\s+(\d+)\s+(plus|minus|times|divided by)\s+(\d+)` -/
def reCalculation : RE :=
  reSeq [reAlts (reStr "calculate")
           [reStr "compute", reStr "add", reStr "subtract", reStr "multiply", reStr "divide"],
         .plus pyIsSpace, .grp (.plus digitCls), .plus pyIsSpace,
         .grp (reAlts (reStr "plus") [reStr "minus", reStr "times", reStr "divided by"]),
         .plus pyIsSpace, .grp (.plus digitCls)]

/-- `PatternBasedTranslator._initialize_patterns`: (name, pattern, static
confidence), in dict insertion order. -/
def patterns : List (String × RE × ℚ) :=
  [("print_statement", rePrintStatement, 9/10),
   ("variable_assignment", reVariableAssignment, 17/20),
   ("simple_assignment", reSimpleAssignment, 4/5),
   ("for_loop", reForLoop, 9/10),
   ("conditional_if", reConditionalIf, 4/5),
   ("end_program", reEndProgram, 19/20),
   ("comment", reComment, 9/10),
   ("calculation", reCalculation, 17/20)]

/-- Result dict shared by the three strategies' `translate` methods.
Failure results carry `success := false` and an `error`; their
`confidence` field is a placeholder `0` (the Python failure dicts have no
such key, and no caller reads it on failure). -/
structure StratResult where
  success : Bool
  translation : String
  confidence : ℚ
  strategy : String
  original_command : String
  pattern_used : Option String
  context_used : Option Bool
  error : Option String
deriving DecidableEq, Repr

/-- `PatternBasedTranslator.can_translate`. -/
def pattern_can_translate (ai_command : String) : Bool :=
  let cl := pyStrip (pyLower ai_command)
  patterns.any fun p => reSearch p.2.1 cl.toList

/-- Template application for the matched pattern (the per-pattern branches
of `PatternBasedTranslator.translate`). -/
def patternBuild (name : String) (groups : List String) : String :=
  let g := fun i => (groups.get? i).getD ""
  if name = "print_statement" then "PRINT \"" ++ g 0 ++ "\""
  else if name = "variable_assignment" then "LET " ++ pyUpper (g 0) ++ " = " ++ g 1
  else if name = "simple_assignment" then "LET " ++ pyUpper (g 0) ++ " = " ++ g 1
  else if name = "for_loop" then
    "FOR I = " ++ g 0 ++ " TO " ++ g 1 ++ "\nPRINT I\nNEXT I"
  else if name = "conditional_if" then
    "IF " ++ pyUpper (g 0) ++ " = " ++ g 2 ++ " THEN PRINT \"" ++ g 3 ++ "\""
  else if name = "end_program" then "END"
  else if name = "comment" then "REM " ++ g 0
  else if name = "calculation" then
    let op := if g 1 = "plus" then "+"
      else if g 1 = "minus" then "-"
      else if g 1 = "times" then "*"
      else if g 1 = "divided by" then "/"
      else "+"
    "LET RESULT = " ++ g 0 ++ " " ++ op ++ " " ++ g 2 ++ "\nPRINT \"Result: \"; RESULT"
  else ""

def patternTranslateGo (ai_command : String) (cl : List Char) :
    List (String × RE × ℚ) → StratResult
  | [] =>
    { success := false, translation := "", confidence := 0, strategy := ""
      original_command := ai_command, pattern_used := none, context_used := none
      error := some "No matching pattern found" }
  | (name, re, conf) :: rest =>
    match reSearchGroups re cl with
    | some caps =>
      { success := true
        translation := patternBuild name (caps.map fun l => ⟨l⟩)
        confidence := conf, strategy := "pattern_based"
        original_command := ai_command, pattern_used := some name
        context_used := none, error := none }
    | none => patternTranslateGo ai_command cl rest

/-- `PatternBasedTranslator.translate`. -/
def pattern_translate (ai_command : String) : StratResult :=
  patternTranslateGo ai_command (pyStrip (pyLower ai_command)).toList patterns

/-! ### RuleBasedTranslator (`ai_command_translator.py:185`) -/

/-- `RuleBasedTranslator.can_translate`: any basic keyword word or
operator word occurs as a substring. -/
def rule_can_translate (ai_command : String) : Bool :=
  let cl := pyStrip (pyLower ai_command)
  ruleBasicKeywords.any (fun kv => containsS cl kv.1) ||
    ruleOperators.any (fun kv => containsS cl kv.1)

/-- `words[i]`; out-of-range reads never occur on the paths exercised
(the scanner checks bounds first, as the Python code does). -/
def wordAt (ws : List String) (i : Nat) : String := (ws[i]?).getD ""

def startsWithQuote (w : String) : Bool :=
  w.toList.head? = some '"' || w.toList.head? = some quoteChar2

def endsWithQuote (w : String) : Bool :=
  w.toList.getLast? = some '"' || w.toList.getLast? = some quoteChar2

/-- The inner `while` of the `print` branch: starting with `i` after the
opening-quote word, keep consuming words until the next word ends with a
quote (or runs out); returns the number of loop iterations (so the final
Python `i` is the starting index plus this count) and the accumulated
parts. -/
def collect_quoted (ws : List String) (i : Nat) (parts : List String) :
    Nat × List String :=
  if i + 1 < ws.length ∧ ¬(endsWithQuote (wordAt ws (i + 1)) = true) then
    let r := collect_quoted ws (i + 1) (parts ++ [wordAt ws (i + 1)])
    (r.1 + 1, r.2)
  else
    (0, parts)
termination_by ws.length - i

/-- The `while i < len(words)` scan of `RuleBasedTranslator.translate`,
accumulating `translation_parts`. -/
def rule_scan (ws : List String) (i : Nat) (acc : List String) : List String :=
  if _h : i < ws.length then
    let word := wordAt ws i
    match (ruleBasicKeywords.lookup word) with
    | none => rule_scan ws (i + 1) acc
    | some basicCmd =>
      let acc := acc ++ [basicCmd]
      if word = "print" then
        if i + 1 < ws.length then
          let nextWord := wordAt ws (i + 1)
          if startsWithQuote nextWord then
            let jp := collect_quoted ws (i + 1) [nextWord]
            let j := i + 1 + jp.1
            if j + 1 < ws.length then
              rule_scan ws (j + 1 + 1)
                (acc ++ [joinSpace (jp.2 ++ [wordAt ws (j + 1)])])
            else
              rule_scan ws (j + 1) (acc ++ [joinSpace jp.2])
          else
            rule_scan ws (i + 2) (acc ++ [pyUpper nextWord])
        else rule_scan ws (i + 1) acc
      else if word = "let" then
        if i + 2 < ws.length then
          let varName := pyUpper (wordAt ws (i + 1))
          let op := wordAt ws (i + 2)
          if op = "=" || op = "equals" then
            if i + 3 < ws.length then
              rule_scan ws (i + 4) (acc ++ [varName, "=", wordAt ws (i + 3)])
            else rule_scan ws (i + 1) acc
          else rule_scan ws (i + 1) acc
        else rule_scan ws (i + 1) acc
      else if word = "for" then
        if i + 3 < ws.length then
          let varName := pyUpper (wordAt ws (i + 1))
          if wordAt ws (i + 2) = "=" || wordAt ws (i + 2) = "equals" then
            let acc2 := acc ++ [varName, "=", wordAt ws (i + 3)]
            if i + 3 + 2 < ws.length ∧ wordAt ws (i + 3 + 1) = "to" then
              rule_scan ws (i + 3 + 2 + 1) (acc2 ++ ["TO", wordAt ws (i + 3 + 2)])
            else rule_scan ws (i + 3 + 1) acc2
          else rule_scan ws (i + 1) acc
        else rule_scan ws (i + 1) acc
      else rule_scan ws (i + 1) acc
  else acc
termination_by ws.length - i
decreasing_by all_goals omega

/-- `RuleBasedTranslator.translate`. -/
def rule_translate (ai_command : String) : StratResult :=
  let cl := pyStrip (pyLower ai_command)
  let ws := pySplit cl
  let parts := rule_scan ws 0 []
  if parts.isEmpty then
    { success := false, translation := "", confidence := 0, strategy := ""
      original_command := ai_command, pattern_used := none, context_used := none
      error := some "No recognizable patterns found" }
  else
    let translation := joinSpace parts
    { success := true, translation := translation
      confidence := calculate_rule_confidence cl translation
      strategy := "rule_based", original_command := ai_command
      pattern_used := none, context_used := none, error := none }

/-! ### ContextualTranslator (`ai_command_translator.py:358`) -/

/-- The optional `context` dict, restricted to the `sequence` key that
`ContextualTranslator.translate` reads.  `bool(context)` is modelled as
`context.isSome` (the strategy is never handed an empty dict by the
modelled callers). -/
structure TransContext where
  sequence : Option (List String)
deriving DecidableEq, Repr

/-- `ContextualTranslator.can_translate` is constantly true. -/
def contextual_can_translate (_ai_command : String) : Bool := true

/-- Trimming of `context_history` to its last `max_history = 10` entries. -/
def trimHist (h : List String) : List String :=
  if h.length > 10 then h.drop (h.length - 10) else h

/-- `ContextualTranslator.translate`.  The strategy's
`context_history` (a rolling buffer of the last 10 submitted texts, most
recent last) is threaded explicitly; the returned list is the updated
buffer. -/
def contextual_translate (history : List String) (ai_command : String)
    (context : Option TransContext) : StratResult × List String :=
  let cl := pyStrip (pyLower ai_command)
  let h2 := trimHist (history ++ [ai_command])
  let tc :=
    if containsS cl "it" || containsS cl "that" then
      if !h2.isEmpty then
        let lastCommand := if h2.length > 1 then wordAt h2 (h2.length - 2) else ""
        if containsS (pyLower lastCommand) "print" then ("PRINT IT", (7/10 : ℚ))
        else ("REM Context reference not clear", 3/10)
      else ("REM No context available", 1/5)
    else if containsS cl "again" || containsS cl "repeat" then
      if !h2.isEmpty && h2.length > 1 then (wordAt h2 (h2.length - 2), 4/5)
      else ("REM Nothing to repeat", 1/5)
    else if containsS cl "now" || containsS cl "next" then
      match context with
      | some c =>
        match c.sequence with
        | some seq =>
          match seq with
          | nextCmd :: _ => (nextCmd, 9/10)
          | [] => ("REM No sequence available", 3/10)
        | none => ("REM No context for sequence", 1/5)
      | none => ("REM No context for sequence", 1/5)
    else
      ("REM " ++ ai_command, 2/5)
  ({ success := true, translation := tc.1, confidence := tc.2
     strategy := "contextual", original_command := ai_command
     pattern_used := none, context_used := some context.isSome, error := none },
   h2)

/-! ### AICommandTranslator.translate_command (`ai_command_translator.py:494`) -/

/-- Final dict returned by `translate_command` (timing, ids and timestamps
omitted; they are wall-clock bookkeeping no claim mentions). -/
structure EngineResult where
  success : Bool
  original_command : String
  translation : Option String
  confidence : ℚ
  strategy_used : Option String
  validation : Option Validation
  error : Option String
  suggestions : List String
deriving DecidableEq, Repr

/-- `AICommandTranslator._generate_suggestions`. -/
def generate_suggestions (ai_command : String) : List String :=
  let cl := pyLower ai_command
  let s :=
    (if containsS cl "print" then ["Try: PRINT \"your text here\""] else []) ++
    (if containsS cl "set" || containsS cl "let" then ["Try: LET VARIABLE = value"] else []) ++
    (if containsS cl "loop" || containsS cl "for" then ["Try: FOR I = 1 TO 10"] else []) ++
    (if containsS cl "if" then ["Try: IF condition THEN action"] else []) ++
    (if containsS cl "end" then ["Try: END"] else [])
  if s.isEmpty then
    ["Consider using basic BASIC commands like PRINT, LET, FOR, IF, or END",
     "Be more specific about what you want the program to do"]
  else s

/-- One iteration of the strategy loop: given the (best result, best
confidence) pair, the strategy's `can_translate` answer and its
`translate` result, produce the new pair and whether the `break` on
`confidence >= 0.8` fires. -/
def strategy_step (best : Option StratResult × ℚ) (can : Bool)
    (r : StratResult) : (Option StratResult × ℚ) × Bool :=
  if can then
    if r.success then
      if r.confidence > best.2 then
        ((some r, r.confidence), decide (r.confidence ≥ 4/5))
      else (best, false)
    else (best, false)
  else (best, false)

/-- Assembling the final result after the loop. -/
def engine_finalize (ai_command : String) (best : Option StratResult × ℚ) :
    EngineResult :=
  match best.1 with
  | some r =>
    { success := true, original_command := ai_command
      translation := some r.translation, confidence := best.2
      strategy_used := some r.strategy
      validation := some (validate_translation r.translation)
      error := none, suggestions := [] }
  | none =>
    { success := false, original_command := ai_command, translation := none
      confidence := 0, strategy_used := none, validation := none
      error := some "No translation strategy could handle this command"
      suggestions := generate_suggestions ai_command }

/-- `AICommandTranslator.translate_command`: run the strategies in the
fixed order [pattern, rule, contextual], tracking the best-confidence
success and breaking early at confidence ≥ 0.8.  The contextual
strategy's history buffer is threaded through; it is only appended to
when the loop actually reaches the contextual strategy, exactly as in the
Python code. -/
def translate_command (history : List String) (ai_command : String)
    (context : Option TransContext) : EngineResult × List String :=
  let s1 := strategy_step (none, 0) (pattern_can_translate ai_command)
      (pattern_translate ai_command)
  if s1.2 then (engine_finalize ai_command s1.1, history)
  else
    let s2 := strategy_step s1.1 (rule_can_translate ai_command)
        (rule_translate ai_command)
    if s2.2 then (engine_finalize ai_command s2.1, history)
    else
      let cr := contextual_translate history ai_command context
      let s3 := strategy_step s2.1 (contextual_can_translate ai_command) cr.1
      (engine_finalize ai_command s3.1, cr.2)

/-! ### AICommandSender (`ai_command_sender.py:370`)

`send_command` is modelled with explicit state (cache and request
history), an explicit wall-clock instant `now`, and an explicit measured
elapsed time for the provider round trip.  A provider is its name, its
`retry_attempts` budget, and its `send_request` behaviour (a function
from the attempt index to an outcome, as in `send_with_retries`). -/

/-- Normalised provider response (the dict `send_request` returns on
success, restricted to the keys `send_command` reads). -/
structure ProviderResponse where
  content : String
  usage : Usage
deriving DecidableEq, Repr

structure Provider where
  name : String
  retry_attempts : Nat
  send : Nat → Except BridgeError ProviderResponse

/-- The request context, as an association list standing for the JSON
object; `None` context and `{}` are distinguished as in the Python code
(the cache key uses `context or {}`). -/
abbrev SendCtx := List (String × String)

/-- The cache key.  The code keys by
`md5(json.dumps({command, provider, context or {}}, sort_keys=True))`;
since that digest is a deterministic function of the triple, the key is
modelled as the triple itself. -/
abbrev CacheKey := String × Option String × SendCtx

/-- `_validate_response`'s result dict. -/
structure SenderValidation where
  is_valid : Bool
  issues : List String
  suggestions : List String
deriving DecidableEq, Repr

def senderBasicKeywords : List String :=
  ["PRINT", "LET", "FOR", "NEXT", "IF", "THEN", "GOTO", "END", "REM"]

/-- `re.findall(r"\d+\s+", content)` is non-empty iff this pattern occurs. -/
def reLineNumber : RE := .cat (.plus digitCls) (.cls pyIsSpace)

/-- `AICommandSender._validate_response`. -/
def validate_response (content : String) : SenderValidation :=
  if pyStrip content = "" then
    { is_valid := false, issues := ["Empty response"], suggestions := [] }
  else
    let cu := pyUpper content
    let hasBasic := senderBasicKeywords.any fun k => containsS cu k
    let issues := if hasBasic then [] else ["No BASIC-M6502 keywords found"]
    let suggestions :=
      (if hasBasic then [] else ["Response may not contain valid BASIC commands"]) ++
      (if reSearch reLineNumber content.toList then []
       else ["Consider adding line numbers (10, 20, 30, etc.)"]) ++
      (if containsS cu "PRINT" && !containsS content "\"" then
        ["PRINT statements should include quotes around text"] else [])
    { is_valid := true, issues := issues, suggestions := suggestions }

def confidenceKeywords : List String :=
  ["PRINT", "LET", "FOR", "NEXT", "IF", "THEN", "GOTO", "END"]

/-- `AICommandSender._calculate_confidence`. -/
def calculate_confidence (content : String) : ℚ :=
  if pyStrip content = "" then 0
  else
    let cu := pyUpper content
    let kwCount := (confidenceKeywords.filter fun k => containsS cu k).length
    let confidence : ℚ := 1/2 + min ((kwCount : ℚ) * (1/10)) (3/10)
    let confidence := confidence +
      (if reSearch reLineNumber content.toList then 1/10 else 0)
    let confidence := confidence +
      (if containsS content "\"" && containsS cu "PRINT" then 1/10 else 0)
    let confidence := confidence -
      (if containsS (pyLower content) "error" || containsS (pyLower content) "cannot"
       then 1/5 else 0)
    min (max confidence 0) 1

/-- The result dict of `send_command` (success and failure shapes merged;
fields absent on the failure path are `Option`/defaulted exactly where a
reader would use `.get`). -/
structure SendResult where
  request_id : String
  success : Bool
  provider : String
  command : String
  response : String
  confidence : ℚ
  validation : SenderValidation
  response_time : ℚ
  timestamp : ℚ
  usage : Usage
  cached : Bool
  error : Option String
deriving DecidableEq, Repr

structure CacheEntry where
  response : SendResult
  timestamp : ℚ
deriving DecidableEq, Repr

structure SenderState where
  cache : List (CacheKey × CacheEntry)
  request_history : List SendResult
deriving DecidableEq, Repr

structure SenderConfig where
  cache_enabled : Bool
  cache_ttl : ℚ
  max_cache_size : Nat
  max_history_size : Nat
  default_provider : String
  fallback_provider : String
  providers : List (String × Provider)

/-- Dict-style association-list update: replace in place if the key is
present, else append (Python dict insertion order). -/
def assocPut (key : CacheKey) (v : CacheEntry) :
    List (CacheKey × CacheEntry) → List (CacheKey × CacheEntry)
  | [] => [(key, v)]
  | (k, w) :: rest =>
    if k = key then (k, v) :: rest else (k, w) :: assocPut key v rest

/-- `AICommandSender._select_provider`. -/
def select_provider (cfg : SenderConfig) (preferred : Option String) :
    Option Provider :=
  match preferred with
  | some p =>
    match cfg.providers.lookup p with
    | some prov => some prov
    | none => selectDefault cfg
  | none => selectDefault cfg
where
  selectDefault (cfg : SenderConfig) : Option Provider :=
    match cfg.providers.lookup cfg.default_provider with
    | some prov => some prov
    | none =>
      match cfg.providers.lookup cfg.fallback_provider with
      | some prov => some prov
      | none => (cfg.providers.head?).map (·.2)

/-- `AICommandSender._get_cached_response`: `none` on miss (with lazy
deletion of an expired entry), else the stored result re-tagged
`cached := true`. -/
def get_cached_response (cfg : SenderConfig) (now : ℚ)
    (cache : List (CacheKey × CacheEntry)) (key : CacheKey) :
    Option SendResult × List (CacheKey × CacheEntry) :=
  match cache.lookup key with
  | none => (none, cache)
  | some entry =>
    if now - entry.timestamp > cfg.cache_ttl then
      (none, cache.filter fun kv => !(kv.1 = key))
    else
      (some { entry.response with cached := true }, cache)

/-- `AICommandSender._cache_response`: store, then evict the oldest 100
entries when the cache exceeds `max_cache_size`.  `sorted` on the
timestamps is modelled with a stable merge sort, as Python's `sorted`. -/
def cache_response (cfg : SenderConfig) (now : ℚ)
    (cache : List (CacheKey × CacheEntry)) (key : CacheKey)
    (response : SendResult) : List (CacheKey × CacheEntry) :=
  let cache := assocPut key ⟨response, now⟩ cache
  if cache.length > cfg.max_cache_size then
    let oldest := (cache.mergeSort fun a b => a.2.timestamp ≤ b.2.timestamp).take 100
    cache.filter fun kv => !(oldest.any fun o => o.1 = kv.1)
  else cache

/-- `AICommandSender._add_to_history`. -/
def sender_add_to_history (cfg : SenderConfig) (st : List SendResult)
    (r : SendResult) : List SendResult :=
  let h := st ++ [r]
  if h.length > cfg.max_history_size then h.drop (h.length - cfg.max_history_size)
  else h

/-- `AICommandSender.send_command`.  Returns the result dict, the updated
state, and the number of `send_request` invocations made (0 on a cache
hit).  `now` is `time.time()` at entry; `elapsed` is the measured
response time recorded in a fresh (non-cached) result. -/
def send_command (cfg : SenderConfig) (st : SenderState) (now elapsed : ℚ)
    (command : String) (provider : Option String) (context : Option SendCtx) :
    SendResult × SenderState × Nat :=
  let request_id := "req_" ++ toString ⌊now⌋ ++ "_" ++ toString st.request_history.length
  let key : CacheKey := (command, provider, context.getD [])
  let cacheProbe :=
    if cfg.cache_enabled then get_cached_response cfg now st.cache key
    else (none, st.cache)
  match cacheProbe.1 with
  | some cachedResult => (cachedResult, { st with cache := cacheProbe.2 }, 0)
  | none =>
    let st := { st with cache := cacheProbe.2 }
    match select_provider cfg provider with
    | none =>
      let errResult : SendResult :=
        { request_id := request_id, success := false, provider := provider.getD "unknown"
          command := command, response := "", confidence := 0
          validation := ⟨true, [], []⟩, response_time := elapsed, timestamp := now
          usage := ⟨0, 0, 0⟩, cached := false
          error := some "No available AI providers" }
      (errResult,
       { st with request_history := sender_add_to_history cfg st.request_history errResult },
       0)
    | some prov =>
      let attempt := send_with_retries prov.retry_attempts prov.send
      match attempt.1 with
      | .error e =>
        let msg := match e with
          | some err => err.message
          | none => "All retry attempts failed"
        let errResult : SendResult :=
          { request_id := request_id, success := false, provider := provider.getD "unknown"
            command := command, response := "", confidence := 0
            validation := ⟨true, [], []⟩, response_time := elapsed, timestamp := now
            usage := ⟨0, 0, 0⟩, cached := false, error := some msg }
        (errResult,
         { st with request_history := sender_add_to_history cfg st.request_history errResult },
         attempt.2.1)
      | .ok resp =>
        let result : SendResult :=
          { request_id := request_id, success := true, provider := prov.name
            command := command, response := resp.content
            confidence := calculate_confidence resp.content
            validation := validate_response resp.content
            response_time := elapsed, timestamp := now, usage := resp.usage
            cached := false, error := none }
        let cache2 := if cfg.cache_enabled then
            cache_response cfg now st.cache key result
          else st.cache
        (result,
         { cache := cache2
           request_history := sender_add_to_history cfg st.request_history result },
         attempt.2.1)

/-! ### Concrete fixtures used by witnesses and counterexamples -/

def interactionExample : AIInteraction :=
  { interaction_id := "int_1_0", status := .pending, created_at := 0
    updated_at := 0, prompt := "print hello", ai_response := none
    translated_commands := none, execution_results := none, feedback := none
    confidence_score := none, error_message := none, ai_processing_time := none
    translation_time := none, execution_time := none, total_time := none }

/-- `execute_interaction` on a run whose provider phase reports
confidence 0.9 and whose translation phase reports confidence 0.3. -/
def execInterExample : AIInteraction :=
  execute_interaction 5 interactionExample
    ⟨true, "10 PRINT \"HI\"", some (9/10), none⟩ 1
    ⟨true, ["10 PRINT \"HI\""], some (3/10), none⟩ 2 [] 3 6

def provExample : Provider :=
  ⟨"openai", 3, fun _ => .ok ⟨"10 PRINT \"HI\"", ⟨1, 2, 3⟩⟩⟩

def senderCfgExample : SenderConfig :=
  { cache_enabled := true, cache_ttl := 3600, max_cache_size := 1000
    max_history_size := 1000, default_provider := "openai"
    fallback_provider := "google", providers := [("openai", provExample)] }

/-- The success result dict assembled by `send_command` after a provider
round trip (named here so the characterisation lemmas below can refer to
it without repeating the record). -/
def mkSendSuccess (st : SenderState) (now elapsed : ℚ) (command : String)
    (provName : String) (resp : ProviderResponse) : SendResult :=
  { request_id := "req_" ++ toString ⌊now⌋ ++ "_" ++
      toString st.request_history.length
    success := true, provider := provName, command := command
    response := resp.content, confidence := calculate_confidence resp.content
    validation := validate_response resp.content, response_time := elapsed
    timestamp := now, usage := resp.usage, cached := false, error := none }

/-! ## Supporting lemmas -/

/-- A pattern of non-whitespace characters is not a prefix of a string
that starts with whitespace. -/
theorem isPrefixOf_head_ws {pat : List Char} {c : Char} {rest : List Char}
    (hpat : ∀ x ∈ pat, pyIsSpace x = false) (hne : pat ≠ [])
    (hc : pyIsSpace c = true) : pat.isPrefixOf (c :: rest) = false := by
  cases pat with
  | nil => exact absurd rfl hne
  | cons p ps =>
    have hp : pyIsSpace p = false := hpat p (by simp)
    simp only [List.isPrefixOf, Bool.and_eq_false_iff]
    left
    simp only [beq_eq_false_iff_ne, ne_eq]
    intro hpc
    rw [hpc, hc] at hp
    simp at hp

/-- A pattern of non-whitespace characters never occurs in an
all-whitespace string, whatever the skip counter. -/
theorem countOccAux_allWs (pat : List Char)
    (hpat : ∀ x ∈ pat, pyIsSpace x = false) (hne : pat ≠ []) :
    ∀ suf : List Char, (∀ x ∈ suf, pyIsSpace x = true) →
    ∀ k, countOccAux pat suf k = 0 := by
  intro suf
  induction suf with
  | nil => intro _ _; rfl
  | cons c rest ih =>
    intro hsuf k
    cases k with
    | zero =>
      rw [countOccAux, isPrefixOf_head_ws hpat hne (hsuf c (by simp))]
      simp only [Bool.false_eq_true, if_false]
      exact ih (fun x hx => hsuf x (by simp [hx])) 0
    | succ k =>
      rw [countOccAux]
      exact ih (fun x hx => hsuf x (by simp [hx])) k

theorem countOccAux_dropWhile_ws (pat : List Char)
    (hpat : ∀ x ∈ pat, pyIsSpace x = false) (hne : pat ≠ []) (l : List Char) :
    countOccAux pat (l.dropWhile pyIsSpace) 0 = countOccAux pat l 0 := by
  induction l with
  | nil => rfl
  | cons c rest ih =>
    by_cases hc : pyIsSpace c = true
    · rw [List.dropWhile_cons, if_pos hc, ih, countOccAux,
          isPrefixOf_head_ws hpat hne hc]
      simp
    · rw [List.dropWhile_cons, if_neg hc]

/-- Appending all-whitespace characters does not affect whether a
non-whitespace pattern is a prefix. -/
theorem isPrefixOf_append_ws (pat : List Char)
    (hpat : ∀ x ∈ pat, pyIsSpace x = false) (suf : List Char)
    (hsuf : ∀ x ∈ suf, pyIsSpace x = true) :
    ∀ l : List Char, pat.isPrefixOf (l ++ suf) = pat.isPrefixOf l := by
  induction pat with
  | nil => intro l; simp [List.isPrefixOf]
  | cons p ps ih =>
    intro l
    cases l with
    | nil =>
      simp only [List.nil_append]
      have : (p :: ps).isPrefixOf suf = false := by
        cases suf with
        | nil => simp [List.isPrefixOf]
        | cons s ss =>
          exact isPrefixOf_head_ws hpat (by simp) (hsuf s (by simp))
      rw [this]
      simp [List.isPrefixOf]
    | cons a as =>
      simp only [List.cons_append, List.isPrefixOf, List.append_eq]
      rw [ih (fun x hx => hpat x (by simp [hx])) as]

/-- Appending all-whitespace characters does not change the occurrence
count of a non-whitespace pattern, whatever the skip counter. -/
theorem countOccAux_append_ws (pat : List Char)
    (hpat : ∀ x ∈ pat, pyIsSpace x = false) (hne : pat ≠ []) (suf : List Char)
    (hsuf : ∀ x ∈ suf, pyIsSpace x = true) :
    ∀ (l : List Char) (k : Nat),
      countOccAux pat (l ++ suf) k = countOccAux pat l k := by
  intro l
  induction l with
  | nil =>
    intro k
    rw [List.nil_append, countOccAux_allWs pat hpat hne suf hsuf k]
    rfl
  | cons c rest ih =>
    intro k
    cases k with
    | zero =>
      have hpre : pat.isPrefixOf (c :: (rest ++ suf)) = pat.isPrefixOf (c :: rest) := by
        have := isPrefixOf_append_ws pat hpat suf hsuf (c :: rest)
        simpa using this
      rw [List.cons_append, countOccAux, countOccAux, hpre]
      by_cases hp : pat.isPrefixOf (c :: rest) = true
      · rw [hp]
        simp only [if_true]
        rw [ih (pat.length - 1)]
      · rw [Bool.not_eq_true] at hp
        rw [hp]
        simp only [Bool.false_eq_true, if_false]
        rw [ih 0]
    | succ k =>
      rw [List.cons_append, countOccAux, countOccAux]
      exact ih k

/-- `str.strip()` does not change the occurrence count of a pattern made
of non-whitespace characters. -/
theorem countOcc_stripL (pat : List Char)
    (hpat : ∀ x ∈ pat, pyIsSpace x = false) (hne : pat ≠ []) (l : List Char) :
    countOcc pat (stripL l) = countOcc pat l := by
  unfold countOcc stripL rstripL
  rw [← countOccAux_dropWhile_ws pat hpat hne l]
  set t := l.dropWhile pyIsSpace with ht
  have hsplit : t = (t.reverse.dropWhile pyIsSpace).reverse ++
      (t.reverse.takeWhile pyIsSpace).reverse := by
    conv_lhs => rw [← List.reverse_reverse t,
      ← List.takeWhile_append_dropWhile (p := pyIsSpace) (l := t.reverse)]
    rw [List.reverse_append]
  conv_rhs => rw [hsplit]
  rw [countOccAux_append_ws pat hpat hne _
    (fun x hx => List.mem_takeWhile_imp (List.mem_reverse.mp hx)) _ 0]

/-! ## Claim theorems -/

/-- C1: with `retry_attempts = 3` and a provider whose `send_request`
fails on every call, `_send_with_retries` calls `send_request` exactly 3
times, sleeps `2^0` time units after the first failed attempt and `2^1`
after the second (and none after the third), and raises the error of the
last attempt. -/
theorem send_with_retries_always_failing {ε ρ : Type}
    (send : Nat → Except ε ρ) (e0 e1 e2 : ε)
    (h0 : send 0 = .error e0) (h1 : send 1 = .error e1)
    (h2 : send 2 = .error e2) :
    send_with_retries 3 send = (.error (some e2), 3, [2 ^ 0, 2 ^ 1]) := by
  simp [send_with_retries, send_with_retries_go, h0, h1, h2]

theorem send_with_retries_always_failing_witness :
    send_with_retries 3 (fun _ => (.error 0 : Except Nat Nat)) =
      (.error (some 0), 3, [2 ^ 0, 2 ^ 1]) :=
  send_with_retries_always_failing (fun _ => .error 0) 0 0 0 rfl rfl rfl

/-- C3 counterexample: an OpenAI response whose first choice carries an
explicitly empty `content` field is parsed into a *successful* result
with empty content — no `EmptyResponse`-class error is raised. -/
theorem parse_response_empty_content_counterexample :
    openai_parse_response "gpt"
        ⟨[⟨some ⟨some ""⟩, some "stop"⟩], some "gpt-4o", ⟨1, 2, 3⟩⟩ =
      .ok ⟨true, "", "gpt-4o", ⟨1, 2, 3⟩, "stop", "openai"⟩ := rfl

/-- C3 (amended): `_parse_response` fails only when the `choices`
(resp. `candidates` / `parts`) collection is empty; a present-but-empty
or absent `content` field inside a choice yields a successful result
whose content is the empty string. -/
theorem parse_response_fails_only_on_missing_collections :
    (∀ (m : String) (r : OpenAIResponseData) (c : OpenAIChoice)
        (rest : List OpenAIChoice), r.choices = c :: rest →
        pyStrip (openAIRawContent c) = "" →
        ∃ p, openai_parse_response m r = .ok p ∧ p.success = true ∧ p.content = "") ∧
    (∀ (m : String) (r : OpenAIResponseData), r.choices = [] →
        (openai_parse_response m r).isOk = false) ∧
    (∀ (m : String) (r : GoogleResponseData) (c : GoogleCandidate)
        (rest : List GoogleCandidate) (p0 : GooglePart) (prest : List GooglePart),
        r.candidates = c :: rest → googleParts c = p0 :: prest →
        pyStrip (p0.text.getD "") = "" →
        ∃ p, google_parse_response m r = .ok p ∧ p.success = true ∧ p.content = "") ∧
    (∀ (m : String) (r : GoogleResponseData) (c : GoogleCandidate)
        (rest : List GoogleCandidate), r.candidates = c :: rest →
        googleParts c = [] → (google_parse_response m r).isOk = false) := by
  refine ⟨?_, ?_, ?_, ?_⟩
  · intro m r c rest hch hempty
    exact ⟨{ success := true, content := pyStrip (openAIRawContent c)
             model := r.model.getD m, usage := r.usage
             finish_reason := c.finish_reason.getD "unknown", provider := "openai" },
           by rw [openai_parse_response, hch], rfl, hempty⟩
  · intro m r hch
    rw [openai_parse_response, hch]
    rfl
  · intro m r c rest p0 prest hca hpa hempty
    exact ⟨{ success := true, content := pyStrip (p0.text.getD "")
             model := m, usage := r.usageMetadata
             finish_reason := c.finishReason.getD "unknown", provider := "google" },
           by rw [google_parse_response, hca]; simp only [hpa], rfl, hempty⟩
  · intro m r c rest hca hpa
    rw [google_parse_response, hca]
    simp only [hpa]
    rfl

theorem parse_response_fails_only_on_missing_collections_witness :
    (∃ p, openai_parse_response "m" ⟨[⟨none, none⟩], none, ⟨0, 0, 0⟩⟩ = .ok p ∧
        p.success = true ∧ p.content = "") ∧
    (openai_parse_response "m" ⟨[], none, ⟨0, 0, 0⟩⟩).isOk = false ∧
    (∃ p, google_parse_response "m" ⟨[⟨some ⟨[⟨none⟩]⟩, none⟩], ⟨0, 0, 0⟩⟩ = .ok p ∧
        p.success = true ∧ p.content = "") ∧
    (google_parse_response "m" ⟨[⟨none, none⟩], ⟨0, 0, 0⟩⟩).isOk = false := by
  have h := parse_response_fails_only_on_missing_collections
  exact ⟨h.1 "m" _ _ _ rfl rfl, h.2.1 "m" _ rfl,
         h.2.2.1 "m" _ _ _ _ _ rfl rfl rfl, h.2.2.2 "m" _ _ _ rfl rfl⟩

/-- C4 counterexample: an interaction that completes with provider-phase
confidence 0.9 and translation-phase confidence 0.3 records
`confidence_score = 0.9`, not the minimum 0.3 of the two phases. -/
theorem execute_interaction_confidence_counterexample :
    execInterExample.status = .completed ∧
    execInterExample.confidence_score = some (9/10) ∧
    execInterExample.confidence_score ≠ some (min (9/10 : ℚ) (3/10)) := by
  refine ⟨rfl, rfl, ?_⟩
  have h1 : min (9/10 : ℚ) (3/10) = 3/10 := by norm_num
  have h2 : execInterExample.confidence_score = some (9/10 : ℚ) := rfl
  rw [h1, h2]
  simp only [ne_eq, Option.some_inj]
  norm_num

/-- C4 (amended): an interaction that reaches the execution phase and
completes records `confidence_score` equal to the provider-phase
confidence (defaulting to 0.5 when absent) — the translation-phase
confidence is ignored — and carries a recorded time for each of the
provider, translation, execution, and total phases. -/
theorem execute_interaction_completed_fields (now : ℚ) (i : AIInteraction)
    (ai : AiPhaseResult) (aiT : ℚ) (tr : TransPhaseResult) (trT : ℚ)
    (ex : List ExecutionOutcome) (exT tT : ℚ)
    (hai : ai.success = true) (htr : tr.success = true) :
    (execute_interaction now i ai aiT tr trT ex exT tT).status = .completed ∧
    (execute_interaction now i ai aiT tr trT ex exT tT).confidence_score =
      some (ai.confidence.getD (1/2)) ∧
    (execute_interaction now i ai aiT tr trT ex exT tT).ai_processing_time = some aiT ∧
    (execute_interaction now i ai aiT tr trT ex exT tT).translation_time = some trT ∧
    (execute_interaction now i ai aiT tr trT ex exT tT).execution_time = some exT ∧
    (execute_interaction now i ai aiT tr trT ex exT tT).total_time = some tT := by
  unfold execute_interaction
  simp [hai, htr]

theorem execute_interaction_completed_fields_witness :
    (execute_interaction 0 interactionExample ⟨true, "X", none, none⟩ 1
        ⟨true, [], none, none⟩ 2 [] 3 4).status = .completed ∧
    (execute_interaction 0 interactionExample ⟨true, "X", none, none⟩ 1
        ⟨true, [], none, none⟩ 2 [] 3 4).confidence_score =
      some ((none : Option ℚ).getD (1/2)) ∧
    (execute_interaction 0 interactionExample ⟨true, "X", none, none⟩ 1
        ⟨true, [], none, none⟩ 2 [] 3 4).ai_processing_time = some 1 ∧
    (execute_interaction 0 interactionExample ⟨true, "X", none, none⟩ 1
        ⟨true, [], none, none⟩ 2 [] 3 4).translation_time = some 2 ∧
    (execute_interaction 0 interactionExample ⟨true, "X", none, none⟩ 1
        ⟨true, [], none, none⟩ 2 [] 3 4).execution_time = some 3 ∧
    (execute_interaction 0 interactionExample ⟨true, "X", none, none⟩ 1
        ⟨true, [], none, none⟩ 2 [] 3 4).total_time = some 4 :=
  execute_interaction_completed_fields 0 interactionExample
    ⟨true, "X", none, none⟩ 1 ⟨true, [], none, none⟩ 2 [] 3 4 rfl rfl

/-- C6: for a non-empty statement, `syntax_score = max(0, 1 − 0.2×#issues)`
and `is_valid` holds exactly when the issue list is empty; an
all-whitespace statement is always invalid. -/
theorem validate_translation_score (s : String) :
    (pyStrip s ≠ "" →
      (validate_translation s).syntax_score =
        max 0 (1 - ((validate_translation s).issues.length : ℚ) * (1/5)) ∧
      ((validate_translation s).is_valid = true ↔
        (validate_translation s).issues = [])) ∧
    (pyStrip s = "" → (validate_translation s).is_valid = false) := by
  unfold validate_translation
  by_cases h : pyStrip s = "" <;>
    simp [h, max_comm, List.isEmpty_iff]

theorem validate_translation_score_witness :
    ((validate_translation "PRINT").syntax_score =
        max 0 (1 - ((validate_translation "PRINT").issues.length : ℚ) * (1/5)) ∧
      ((validate_translation "PRINT").is_valid = true ↔
        (validate_translation "PRINT").issues = [])) ∧
    (validate_translation " ").is_valid = false :=
  ⟨(validate_translation_score "PRINT").1 (by decide),
   (validate_translation_score " ").2 (by decide)⟩

/-- C7: the rule-based strategy's confidence is exactly
`min(1, 0.5 + min(0.1·keywordCount, 0.3) + min(0.1·syntaxCount, 0.2))`
and therefore always lies in `[0.5, 1]`. -/
theorem calculate_rule_confidence_bounds (command translation : String) :
    calculate_rule_confidence command translation =
      min 1 (1/2 + min ((ruleKeywordCount command : ℚ) * (1/10)) (3/10)
               + min ((ruleSyntaxCount translation : ℚ) * (1/10)) (1/5)) ∧
    1/2 ≤ calculate_rule_confidence command translation ∧
    calculate_rule_confidence command translation ≤ 1 := by
  unfold calculate_rule_confidence
  have ha : 0 ≤ min ((ruleKeywordCount command : ℚ) * (1/10)) (3/10) :=
    le_min (by positivity) (by norm_num)
  have hb : 0 ≤ min ((ruleSyntaxCount translation : ℚ) * (1/10)) (1/5) :=
    le_min (by positivity) (by norm_num)
  refine ⟨min_comm _ _, le_min (by linarith) (by norm_num), min_le_right _ _⟩

/-- C5: whenever the validator marks a statement valid, the occurrence
counts of `FOR` and `NEXT` agree in its upper-cased text, and so do the
occurrence counts of `IF` and `THEN`. -/
theorem validate_translation_balance (s : String)
    (h : (validate_translation s).is_valid = true) :
    countOccS "FOR" (pyUpper s) = countOccS "NEXT" (pyUpper s) ∧
    countOccS "IF" (pyUpper s) = countOccS "THEN" (pyUpper s) := by
  by_cases he : pyStrip s = ""
  · rw [validate_translation, if_pos he] at h
    simp at h
  · rw [validate_translation, if_neg he] at h
    simp only [List.isEmpty_iff, List.append_eq_nil] at h
    obtain ⟨⟨⟨⟨-, -⟩, -⟩, hFN⟩, hIT⟩ := h
    have hFN' : countOccS "FOR" (pyStrip (pyUpper s)) =
        countOccS "NEXT" (pyStrip (pyUpper s)) := by
      by_contra hne
      rw [if_pos hne] at hFN
      exact List.cons_ne_nil _ _ hFN
    have hIT' : countOccS "IF" (pyStrip (pyUpper s)) =
        countOccS "THEN" (pyStrip (pyUpper s)) := by
      by_contra hne
      rw [if_pos hne] at hIT
      exact List.cons_ne_nil _ _ hIT
    have hbridge : ∀ pat : String, (∀ x ∈ pat.toList, pyIsSpace x = false) →
        pat.toList ≠ [] →
        countOccS pat (pyStrip (pyUpper s)) = countOccS pat (pyUpper s) := by
      intro pat hpat hne2
      exact countOcc_stripL pat.toList hpat hne2 (upperL s.toList)
    rw [← hbridge "FOR" (by decide) (by decide),
        ← hbridge "NEXT" (by decide) (by decide),
        ← hbridge "IF" (by decide) (by decide),
        ← hbridge "THEN" (by decide) (by decide)]
    exact ⟨hFN', hIT'⟩

theorem validate_translation_balance_witness :
    (validate_translation "PRINT \"HI\"").is_valid = true ∧
    (countOccS "FOR" (pyUpper "PRINT \"HI\"") =
        countOccS "NEXT" (pyUpper "PRINT \"HI\"") ∧
      countOccS "IF" (pyUpper "PRINT \"HI\"") =
        countOccS "THEN" (pyUpper "PRINT \"HI\"")) :=
  ⟨by decide, validate_translation_balance "PRINT \"HI\"" (by decide)⟩

/-- C8 counterexample: on the input `asdkjqwe nonsense` the contextual
fallback wins, but its confidence is exactly 0.4, not strictly less
than 0.4 as claimed. -/
theorem translate_nonsense_counterexample :
    ¬ ((translate_command [] "asdkjqwe nonsense" none).1.success = true ∧
       (translate_command [] "asdkjqwe nonsense" none).1.strategy_used =
         some "contextual" ∧
       (translate_command [] "asdkjqwe nonsense" none).1.confidence < 2/5) := by
  with_unfolding_all decide

/-- C8 (amended): on the input `asdkjqwe nonsense` (no pattern rule and no
rule-strategy keyword applies) `translate_command` succeeds via the
contextual fallback with strategy name `contextual` and confidence
exactly 0.4. -/
theorem translate_nonsense_contextual :
    (translate_command [] "asdkjqwe nonsense" none).1.success = true ∧
    (translate_command [] "asdkjqwe nonsense" none).1.strategy_used =
      some "contextual" ∧
    (translate_command [] "asdkjqwe nonsense" none).1.confidence = 2/5 := by
  with_unfolding_all decide

theorem contextual_translate_success (history : List String) (cmd : String)
    (ctx : Option TransContext) :
    (contextual_translate history cmd ctx).1.success = true := rfl

theorem contextual_translate_conf_pos (history : List String) (cmd : String)
    (ctx : Option TransContext) :
    0 < (contextual_translate history cmd ctx).1.confidence := by
  unfold contextual_translate
  dsimp only
  repeat' split
  all_goals norm_num

theorem strategy_step_break_some (b : Option StratResult × ℚ) (can : Bool)
    (r : StratResult) (h : (strategy_step b can r).2 = true) :
    (strategy_step b can r).1.1.isSome := by
  by_cases h1 : can <;> by_cases h2 : r.success = true <;>
    by_cases h3 : b.2 < r.confidence <;>
    simp_all [strategy_step, gt_iff_lt]

theorem strategy_step_some_mono (b : Option StratResult × ℚ) (can : Bool)
    (r : StratResult) (h : b.1.isSome) :
    (strategy_step b can r).1.1.isSome := by
  unfold strategy_step
  split
  · split
    · split
      · simp
      · simpa using h
    · simpa using h
  · simpa using h

/-- Invariant of the loop: while no best result has been kept, the best
confidence is still the initial 0. -/
theorem strategy_step_conf_of_none (b : Option StratResult × ℚ) (can : Bool)
    (r : StratResult) (hb : b.1 = none → b.2 = 0)
    (h : (strategy_step b can r).1.1 = none) :
    (strategy_step b can r).1.2 = 0 := by
  revert h
  unfold strategy_step
  split
  · split
    · split
      · intro h; simp at h
      · intro h; exact hb h
    · intro h; exact hb h
  · intro h; exact hb h

theorem strategy_step_final (b : Option StratResult × ℚ) (r : StratResult)
    (hb : b.1 = none → b.2 = 0) (hs : r.success = true)
    (hc : 0 < r.confidence) : (strategy_step b true r).1.1.isSome := by
  cases hbb : b.1 with
  | some v => exact strategy_step_some_mono _ _ _ (by simp [hbb])
  | none =>
    have h0 : b.2 = 0 := hb hbb
    simp [strategy_step, hs, gt_iff_lt, h0, hc]

theorem engine_finalize_success (cmd : String) (b : Option StratResult × ℚ)
    (h : b.1.isSome) : (engine_finalize cmd b).success = true := by
  obtain ⟨v, hv⟩ := Option.isSome_iff_exists.mp h
  simp [engine_finalize, hv]

/-- C9: the contextual strategy always accepts and always succeeds with
positive confidence, so `translate_command` returns a success result for
every input — the "no strategy could handle this command" branch is
unreachable. -/
theorem translate_command_always_succeeds (history : List String)
    (cmd : String) (ctx : Option TransContext) :
    contextual_can_translate cmd = true ∧
    (contextual_translate history cmd ctx).1.success = true ∧
    0 < (contextual_translate history cmd ctx).1.confidence ∧
    (translate_command history cmd ctx).1.success = true := by
  refine ⟨rfl, contextual_translate_success history cmd ctx,
    contextual_translate_conf_pos history cmd ctx, ?_⟩
  unfold translate_command
  dsimp only
  split
  case isTrue h1 =>
    exact engine_finalize_success _ _ (strategy_step_break_some _ _ _ h1)
  case isFalse h1 =>
    split
    case isTrue h2 =>
      exact engine_finalize_success _ _ (strategy_step_break_some _ _ _ h2)
    case isFalse h2 =>
      apply engine_finalize_success
      apply strategy_step_final
      · intro hnone
        apply strategy_step_conf_of_none _ _ _ _ hnone
        intro hnone2
        apply strategy_step_conf_of_none _ _ _ _ hnone2
        intro _
        rfl
      · exact contextual_translate_success history cmd ctx
      · exact contextual_translate_conf_pos history cmd ctx

theorem getLast?_drop_of_lt {α : Type} (l : List α) (k : Nat)
    (hk : k < l.length) : (l.drop k).getLast? = l.getLast? := by
  rw [List.getLast?_eq_getElem?, List.getLast?_eq_getElem?, List.getElem?_drop]
  congr 1
  simp only [List.length_drop]
  omega

theorem getElem?_secondLast_append {α : Type} (ys : List α) (x : α)
    (hys : ys ≠ []) :
    (ys ++ [x])[(ys ++ [x]).length - 2]? = ys.getLast? := by
  have hpos : 0 < ys.length := List.length_pos.mpr hys
  have h1 : (ys ++ [x]).length = ys.length + 1 := by simp
  rw [h1]
  have h2 : ys.length + 1 - 2 = ys.length - 1 := by omega
  rw [h2, List.getElem?_append, if_pos (by omega), List.getLast?_eq_getElem?]

/-- After appending the current text and trimming to the last 10 entries,
the history buffer has at least two entries, and the entry at index
`len - 2` (Python `history[-2]`) is the most recently submitted prior
text. -/
theorem trimHist_secondLast (l : List String) (x : String) (hl : l ≠ []) :
    (trimHist (l ++ [x])).length > 1 ∧
    (trimHist (l ++ [x]))[(trimHist (l ++ [x])).length - 2]? = l.getLast? := by
  have hpos : 0 < l.length := List.length_pos.mpr hl
  unfold trimHist
  by_cases hc : (l ++ [x]).length > 10
  · rw [if_pos hc]
    simp only [List.length_append, List.length_singleton] at hc
    have hkle : (l ++ [x]).length - 10 ≤ l.length := by
      simp only [List.length_append, List.length_singleton]
      omega
    rw [List.drop_append_of_le_length hkle]
    have hne : l.drop ((l ++ [x]).length - 10) ≠ [] := by
      intro hnil
      have := congrArg List.length hnil
      simp at this
      omega
    refine ⟨?_, ?_⟩
    · simp
      omega
    · rw [getElem?_secondLast_append _ _ hne,
          getLast?_drop_of_lt _ _
            (by simp only [List.length_append, List.length_singleton]; omega)]
  · rw [if_neg hc]
    refine ⟨?_, getElem?_secondLast_append _ _ hl⟩
    simp
    omega

/-- C10: when the command mentions "again"/"repeat" but not "it"/"that",
the contextual strategy replays the most recently submitted prior text
verbatim with confidence 0.8, and emits `REM Nothing to repeat` with
confidence 0.2 when nothing was submitted before. -/
theorem contextual_repeat (history : List String) (cmd : String)
    (ctx : Option TransContext)
    (hagain : containsS (pyStrip (pyLower cmd)) "again" = true ∨
              containsS (pyStrip (pyLower cmd)) "repeat" = true)
    (hit : containsS (pyStrip (pyLower cmd)) "it" = false)
    (hthat : containsS (pyStrip (pyLower cmd)) "that" = false) :
    (history ≠ [] →
      (contextual_translate history cmd ctx).1.translation =
        history.getLast?.getD "" ∧
      (contextual_translate history cmd ctx).1.confidence = 4/5) ∧
    (history = [] →
      (contextual_translate history cmd ctx).1.translation =
        "REM Nothing to repeat" ∧
      (contextual_translate history cmd ctx).1.confidence = 1/5) ∧
    (contextual_translate history cmd ctx).1.success = true := by
  have hor : (containsS (pyStrip (pyLower cmd)) "again" ||
      containsS (pyStrip (pyLower cmd)) "repeat") = true := by
    rcases hagain with h | h <;> simp [h]
  have hcl1 : (containsS (pyStrip (pyLower cmd)) "it" ||
      containsS (pyStrip (pyLower cmd)) "that") = false := by
    rw [hit, hthat]
    rfl
  unfold contextual_translate
  dsimp only
  rw [hcl1, hor, if_neg (by simp), if_pos rfl]
  refine ⟨?_, ?_, rfl⟩
  · intro hne
    have ht := trimHist_secondLast history cmd hne
    have hcond : (!(trimHist (history ++ [cmd])).isEmpty &&
        decide ((trimHist (history ++ [cmd])).length > 1)) = true := by
      have h1 := ht.1
      rw [Bool.and_eq_true]
      refine ⟨?_, decide_eq_true h1⟩
      cases htl : trimHist (history ++ [cmd]) with
      | nil => rw [htl] at h1; simp at h1
      | cons a as => rfl
    rw [if_pos hcond]
    refine ⟨?_, rfl⟩
    unfold wordAt
    rw [ht.2]
  · intro hemp
    subst hemp
    have htriv : trimHist ([] ++ [cmd]) = [cmd] := by
      simp [trimHist]
    rw [htriv, if_neg (by simp)]
    exact ⟨rfl, rfl⟩

theorem contextual_repeat_witness :
    ((contextual_translate ["PRINT 1"] "again" none).1.translation = "PRINT 1" ∧
     (contextual_translate ["PRINT 1"] "again" none).1.confidence = 4/5) ∧
    ((contextual_translate [] "repeat" none).1.translation =
        "REM Nothing to repeat" ∧
     (contextual_translate [] "repeat" none).1.confidence = 1/5) := by
  constructor
  · have h := contextual_repeat ["PRINT 1"] "again" none (Or.inl (by decide))
      (by decide) (by decide)
    have h2 := h.1 (by decide)
    simpa using h2
  · have h := contextual_repeat [] "repeat" none (Or.inr (by decide))
      (by decide) (by decide)
    exact h.2.1 rfl

theorem lookup_append_of_none {α β : Type} [BEq α] (c d : List (α × β))
    (k : α) (h : List.lookup k c = none) :
    List.lookup k (c ++ d) = List.lookup k d := by
  induction c with
  | nil => simp
  | cons p rest ih =>
    obtain ⟨a, b⟩ := p
    by_cases hka : (k == a) = true
    · exfalso
      simp [List.lookup_cons, hka] at h
    · rw [Bool.not_eq_true] at hka
      simp only [List.cons_append, List.lookup_cons, hka] at h ⊢
      exact ih h

theorem assocPut_of_none (c : List (CacheKey × CacheEntry)) (k : CacheKey)
    (v : CacheEntry) (h : List.lookup k c = none) :
    assocPut k v c = c ++ [(k, v)] := by
  induction c with
  | nil => rfl
  | cons p rest ih =>
    obtain ⟨a, b⟩ := p
    by_cases hak : a = k
    · exfalso
      subst hak
      simp [List.lookup_cons] at h
    · have hka : (k == a) = false := beq_eq_false_iff_ne.mpr (Ne.symm hak)
      simp only [List.lookup_cons, hka] at h
      rw [assocPut, if_neg hak, List.cons_append, ih h]

theorem cache_response_no_evict (cfg : SenderConfig) (now : ℚ)
    (cache : List (CacheKey × CacheEntry)) (key : CacheKey)
    (response : SendResult) (hmiss : List.lookup key cache = none)
    (hsize : cache.length < cfg.max_cache_size) :
    cache_response cfg now cache key response =
      cache ++ [(key, ⟨response, now⟩)] := by
  unfold cache_response
  rw [assocPut_of_none _ _ _ hmiss, if_neg]
  simp only [List.length_append, List.length_singleton]
  omega

/-- Shape of `send_command` on a cache miss whose provider round trip
succeeds. -/
theorem send_command_miss_eq (cfg : SenderConfig) (st : SenderState)
    (now elapsed : ℚ) (command : String) (provider : Option String)
    (context : Option SendCtx) (hc : cfg.cache_enabled = true)
    (hmiss : List.lookup (command, provider, context.getD []) st.cache = none)
    (prov : Provider) (hsel : select_provider cfg provider = some prov)
    (resp : ProviderResponse) (n : Nat) (sl : List Nat)
    (hatt : send_with_retries prov.retry_attempts prov.send = (.ok resp, n, sl)) :
    send_command cfg st now elapsed command provider context =
      (mkSendSuccess st now elapsed command prov.name resp,
       { cache := cache_response cfg now st.cache
           (command, provider, context.getD [])
           (mkSendSuccess st now elapsed command prov.name resp)
         request_history := sender_add_to_history cfg st.request_history
           (mkSendSuccess st now elapsed command prov.name resp) },
       n) := by
  have hprobe : get_cached_response cfg now st.cache
      (command, provider, context.getD []) = (none, st.cache) := by
    unfold get_cached_response
    rw [hmiss]
  unfold send_command
  dsimp only
  rw [hc, if_pos rfl, hprobe]
  dsimp only
  rw [hsel]
  dsimp only
  rw [hatt]
  dsimp only
  rw [if_pos rfl]
  rfl

/-- Shape of `send_command` on a fresh cache hit. -/
theorem send_command_hit_eq (cfg : SenderConfig) (st : SenderState)
    (now elapsed : ℚ) (command : String) (provider : Option String)
    (context : Option SendCtx) (entry : CacheEntry)
    (hc : cfg.cache_enabled = true)
    (hfound : List.lookup (command, provider, context.getD []) st.cache =
      some entry)
    (hfresh : ¬(now - entry.timestamp > cfg.cache_ttl)) :
    send_command cfg st now elapsed command provider context =
      ({ entry.response with cached := true }, { st with cache := st.cache },
       0) := by
  have hprobe : get_cached_response cfg now st.cache
      (command, provider, context.getD []) =
      (some { entry.response with cached := true }, st.cache) := by
    unfold get_cached_response
    rw [hfound]
    dsimp only
    rw [if_neg hfresh]
  unfold send_command
  dsimp only
  rw [hc, if_pos rfl, hprobe]

/-- Failure cases of the first call cannot report success. -/
theorem send_command_not_success_of_bad (cfg : SenderConfig) (st : SenderState)
    (now elapsed : ℚ) (command : String) (provider : Option String)
    (context : Option SendCtx) (hc : cfg.cache_enabled = true)
    (hmiss : List.lookup (command, provider, context.getD []) st.cache = none) :
    (select_provider cfg provider = none →
      (send_command cfg st now elapsed command provider context).1.success = false) ∧
    (∀ prov e n sl, select_provider cfg provider = some prov →
      send_with_retries prov.retry_attempts prov.send = (.error e, n, sl) →
      (send_command cfg st now elapsed command provider context).1.success = false) := by
  have hprobe : get_cached_response cfg now st.cache
      (command, provider, context.getD []) = (none, st.cache) := by
    unfold get_cached_response
    rw [hmiss]
  constructor
  · intro hsel
    unfold send_command
    dsimp only
    rw [hc, if_pos rfl, hprobe]
    dsimp only
    rw [hsel]
  · intro prov e n sl hsel hatt
    unfold send_command
    dsimp only
    rw [hc, if_pos rfl, hprobe]
    dsimp only
    rw [hsel]
    dsimp only
    rw [hatt]

/-- C2: with caching enabled, a first successful `send_command` for a
fresh (command, provider, context) triple returns a result with
`cached = false` and stores it; a second call for the same triple within
the TTL window returns exactly the same result except `cached = true`,
and makes no provider call. -/
theorem send_command_cache_idempotent (cfg : SenderConfig) (st0 : SenderState)
    (t1 t2 e1 e2 : ℚ) (command : String) (provider : Option String)
    (context : Option SendCtx) (hc : cfg.cache_enabled = true)
    (hmiss : List.lookup (command, provider, context.getD []) st0.cache = none)
    (hsize : st0.cache.length < cfg.max_cache_size)
    (hsucc : (send_command cfg st0 t1 e1 command provider context).1.success = true)
    (hwin : t2 - t1 ≤ cfg.cache_ttl) :
    (send_command cfg st0 t1 e1 command provider context).1.cached = false ∧
    (send_command cfg (send_command cfg st0 t1 e1 command provider context).2.1
        t2 e2 command provider context).1 =
      { (send_command cfg st0 t1 e1 command provider context).1 with
          cached := true } ∧
    (send_command cfg (send_command cfg st0 t1 e1 command provider context).2.1
        t2 e2 command provider context).2.2 = 0 := by
  cases hsel : select_provider cfg provider with
  | none =>
    exfalso
    rw [(send_command_not_success_of_bad cfg st0 t1 e1 command provider context
      hc hmiss).1 hsel] at hsucc
    exact Bool.false_ne_true hsucc
  | some prov =>
    rcases hatt : send_with_retries prov.retry_attempts prov.send with
      ⟨outcome, n, sl⟩
    cases outcome with
    | error e =>
      exfalso
      rw [(send_command_not_success_of_bad cfg st0 t1 e1 command provider
        context hc hmiss).2 prov e n sl hsel hatt] at hsucc
      exact Bool.false_ne_true hsucc
    | ok resp =>
      have heq := send_command_miss_eq cfg st0 t1 e1 command provider context
        hc hmiss prov hsel resp n sl hatt
      have hcache1 : cache_response cfg t1 st0.cache
          (command, provider, context.getD [])
          (mkSendSuccess st0 t1 e1 command prov.name resp) =
          st0.cache ++ [((command, provider, context.getD []),
            ⟨mkSendSuccess st0 t1 e1 command prov.name resp, t1⟩)] :=
        cache_response_no_evict cfg t1 st0.cache _ _ hmiss hsize
      have hlook2 : List.lookup (command, provider, context.getD [])
          (st0.cache ++ [((command, provider, context.getD []),
            ⟨mkSendSuccess st0 t1 e1 command prov.name resp, t1⟩)]) =
          some ⟨mkSendSuccess st0 t1 e1 command prov.name resp, t1⟩ := by
        rw [lookup_append_of_none _ _ _ hmiss]
        simp [List.lookup_cons]
      have heq2 := send_command_hit_eq cfg
        ({ cache := st0.cache ++ [((command, provider, context.getD []),
             ⟨mkSendSuccess st0 t1 e1 command prov.name resp, t1⟩)]
           request_history := sender_add_to_history cfg st0.request_history
             (mkSendSuccess st0 t1 e1 command prov.name resp) } : SenderState)
        t2 e2 command provider context
        ⟨mkSendSuccess st0 t1 e1 command prov.name resp, t1⟩
        hc hlook2 (not_lt.mpr hwin)
      refine ⟨?_, ?_, ?_⟩
      · rw [heq]
        rfl
      · rw [heq]
        dsimp only
        rw [hcache1, heq2]
      · rw [heq]
        dsimp only
        rw [hcache1, heq2]

theorem send_command_cache_idempotent_witness :
    (send_command senderCfgExample ⟨[], []⟩ 100 5 "print hi" (some "openai")
        none).1.cached = false ∧
    (send_command senderCfgExample
        (send_command senderCfgExample ⟨[], []⟩ 100 5 "print hi"
          (some "openai") none).2.1 200 7 "print hi" (some "openai") none).1 =
      { (send_command senderCfgExample ⟨[], []⟩ 100 5 "print hi"
          (some "openai") none).1 with cached := true } ∧
    (send_command senderCfgExample
        (send_command senderCfgExample ⟨[], []⟩ 100 5 "print hi"
          (some "openai") none).2.1 200 7 "print hi" (some "openai") none).2.2 =
      0 :=
  send_command_cache_idempotent senderCfgExample ⟨[], []⟩ 100 200 5 7
    "print hi" (some "openai") none rfl rfl (by norm_num [senderCfgExample])
    (by with_unfolding_all decide) (by norm_num [senderCfgExample])

end AuraOS
